import Mathlib

/-!
Verification of the Sieve execution engine sources (dovecot-pigeonhole).

Shallow embedding of the parts of the source relevant to the checked
claims:

* the `address` test opcode (`tst_address_opcode_execute`),
* the `vacation` command: tag validation, operation execution, runtime
  duplicate/conflict checks, the commit path and response sending,
* the `duplicate` extension: hashing, the per-message verdict cache and
  the `duplicate_mark` finish hook.

Machine strings are Lean `String`s, machine integers are `Nat`, the byte
stream of an operation is a list of decoded tokens, fallible reads return
`Option`, and host callbacks (SMTP client, duplicate store) are explicit
function-valued data.  External collaborators whose code is not part of
the sources (comparator objects, address parsing, MD5) are modelled from
the specification where noted.
-/

/-- Interpreter execution status codes (SIEVE_EXEC_*). -/
inductive SieveExecStatus where
  | ok
  | failure
  | tempFailure
  | binCorrupt
  deriving DecidableEq, Repr

/-! ### ASCII case folding and generic character-sequence helpers -/

/-- ASCII lowercasing of a string (`Char.toLower` only folds A-Z). -/
def lowerAscii (s : String) : String :=
  ⟨s.data.map Char.toLower⟩

/-- Does `hay` start with `needle`, character-wise under `eq`?
Model of `strncmp`/`strncasecmp` with the needle length as count. -/
def seqStartsWith (eq : Char → Char → Bool) : List Char → List Char → Bool
  | _, [] => true
  | [], _ :: _ => false
  | h :: hs, n :: ns => eq h n && seqStartsWith eq hs ns

/-- Does `hay` contain `needle` as a contiguous subsequence under `eq`?
Model of `strstr` (and of comparator-driven substring search). -/
def seqContainsWith (eq : Char → Char → Bool) : List Char → List Char → Bool
  | [], needle => needle.isEmpty
  | h :: t, needle => seqStartsWith eq (h :: t) needle || seqContainsWith eq t needle

/-! ### Comparators, match types and address parts

The comparator, match-type and address-part objects live in source files
that are not part of this checkout (`sieve-comparators.c` and friends);
only their selection as defaults inside `tst_address_opcode_execute` is.
Their behaviour is modelled from the specification. -/

/-- The two built-in comparators referenced by the sources. -/
inductive SieveComparator where
  | i_octet
  | i_ascii_casemap
  deriving DecidableEq, Repr

/-- Modelled from the spec: comparator equality. `i;octet` compares raw
octets; `i;ascii-casemap` compares after ASCII case folding. -/
def comparatorEquals : SieveComparator → String → String → Bool
  | SieveComparator.i_octet, a, b => a == b
  | SieveComparator.i_ascii_casemap, a, b => lowerAscii a == lowerAscii b

/-- Modelled from the spec: per-character comparator match. -/
def comparatorCharEquals : SieveComparator → Char → Char → Bool
  | SieveComparator.i_octet, a, b => a == b
  | SieveComparator.i_ascii_casemap, a, b => a.toLower == b.toLower

/-- Match types appearing in the modelled tests. -/
inductive SieveMatchType where
  | is_match
  | contains_match
  deriving DecidableEq, Repr

/-- Modelled from the spec: apply a match type to one value and one key
using the given comparator. -/
def matchTypeMatch : SieveMatchType → SieveComparator → String → String → Bool
  | SieveMatchType.is_match, cmp, value, key => comparatorEquals cmp value key
  | SieveMatchType.contains_match, cmp, value, key =>
      seqContainsWith (comparatorCharEquals cmp) value.data key.data

/-- Modelled from the spec: `sieve_match_end` final verdict.  Neither
`:is` nor `:contains` accumulates state, so the closing verdict is
always false. -/
def matchTypeEnd : SieveMatchType → Bool := fun _ => false

/-- Address parts of RFC 5228. -/
inductive SieveAddressPart where
  | all
  | localpart
  | domain
  deriving DecidableEq, Repr

/-- Characters of the local part: everything before the first at sign
(the whole address when there is none). -/
def localPartChars : List Char → List Char
  | [] => []
  | '@' :: _ => []
  | c :: r => c :: localPartChars r

/-- Characters of the domain: everything after the first at sign, or
none when there is no at sign. -/
def domainChars : List Char → Option (List Char)
  | [] => none
  | '@' :: r => some r
  | _ :: r => domainChars r

/-- Modelled from the spec: project an address through an address part,
returning none to skip the address. -/
def addressPartExtract : SieveAddressPart → String → Option String
  | SieveAddressPart.all, addr => some addr
  | SieveAddressPart.localpart, addr => some ⟨localPartChars addr.data⟩
  | SieveAddressPart.domain, addr => (domainChars addr.data).map fun cs => ⟨cs⟩

/-! ### The address test opcode -/

/-- Decoded optional-operand overrides of an address-match test: one
entry per optional operand present in the bytecode block. -/
structure AddrMatchOverrides where
  addrp : Option SieveAddressPart := none
  mtch : Option SieveMatchType := none
  cmp : Option SieveComparator := none
  deriving DecidableEq, Repr

/-- Modelled from the spec: `sieve_addrmatch_default_get_optionals`
reads the optional-operand block and replaces exactly the defaults for
which an optional operand is present (`none` = no block present). -/
def sieve_addrmatch_default_get_optionals
    (optionals : Option AddrMatchOverrides)
    (addrp : SieveAddressPart) (mtch : SieveMatchType) (cmp : SieveComparator) :
    SieveAddressPart × SieveMatchType × SieveComparator :=
  match optionals with
  | none => (addrp, mtch, cmp)
  | some ov => (ov.addrp.getD addrp, ov.mtch.getD mtch, ov.cmp.getD cmp)

/-- Modelled from the spec: `sieve_address_match` parses a raw header
value into addresses (parser external), projects each through the
address part and feeds it to the match type with the comparator,
bailing out on the first match. -/
def sieve_address_match (parseAddresses : String → List String)
    (addrp : SieveAddressPart) (mtch : SieveMatchType) (cmp : SieveComparator)
    (hval : String) (keys : List String) : Bool :=
  (parseAddresses hval).any fun addr =>
    match addressPartExtract addrp addr with
    | some part => keys.any fun key => matchTypeMatch mtch cmp part key
    | none => false

/-- The matching loop of the address test, given an already selected
comparator, match type and address part: iterate over the requested
header names (skipping names whose retrieval fails), over each header
value, and close with the match-type finalizer. -/
def tst_address_run (parseAddresses : String → List String)
    (mailHeadersUtf8 : String → Option (List String))
    (addrp : SieveAddressPart) (mtch : SieveMatchType) (cmp : SieveComparator)
    (hdrList keyList : List String) : Bool :=
  let matched := hdrList.any fun hname =>
    match mailHeadersUtf8 hname with
    | some headers =>
        headers.any fun hval =>
          sieve_address_match parseAddresses addrp mtch cmp hval keyList
    | none => false
  matchTypeEnd mtch || matched

/-- `tst_address_opcode_execute`: initialize the comparator to
`i;octet`, the match type to `:is` and the address part to `:all`,
override from the optional-operand block, then run the header/address
matching loop and set the test result. -/
def tst_address_opcode_execute (parseAddresses : String → List String)
    (mailHeadersUtf8 : String → Option (List String))
    (optionals : Option AddrMatchOverrides)
    (hdrList keyList : List String) : Bool :=
  let cmp := SieveComparator.i_octet
  let mtch := SieveMatchType.is_match
  let addrp := SieveAddressPart.all
  let sel := sieve_addrmatch_default_get_optionals optionals addrp mtch cmp
  let matched := hdrList.any fun hname =>
    match mailHeadersUtf8 hname with
    | some headers =>
        headers.any fun hval =>
          sieve_address_match parseAddresses sel.1 sel.2.1 sel.2.2 hval keyList
    | none => false
  matchTypeEnd sel.2.1 || matched

/-- The defaults the claim attributes to the address test, following
the specification words: `i;ascii-casemap`, `:is`, `:all`. -/
def addressDefaultsSpecClaim :
    SieveAddressPart × SieveMatchType × SieveComparator :=
  (SieveAddressPart.all, SieveMatchType.is_match, SieveComparator.i_ascii_casemap)

/-- C1 counterexample: with no optional operands present the address
test is case-sensitive.  A header value differing from the key only in
ASCII case does not match under the defaults actually applied by
`tst_address_opcode_execute`, although under the claimed
`i;ascii-casemap` + `:is` + `:all` defaults it would match. -/
theorem tst_address_default_casemap_cex :
    tst_address_opcode_execute (fun s => [s])
      (fun h => if h = "from" then some ["Root@example.org"] else none)
      none ["from"] ["root@example.org"] = false
    ∧ tst_address_run (fun s => [s])
      (fun h => if h = "from" then some ["Root@example.org"] else none)
      addressDefaultsSpecClaim.1 addressDefaultsSpecClaim.2.1
      addressDefaultsSpecClaim.2.2 ["from"] ["root@example.org"] = true
    ∧ comparatorEquals SieveComparator.i_ascii_casemap
        "Root@example.org" "root@example.org" = true := by
  refine ⟨?_, ?_, ?_⟩ <;> decide

/-- C1 (amended): with no comparator, match-type or address-part
optional operands present, `tst_address_opcode_execute` behaves exactly
as the matching loop with the `i;octet` comparator, the `:is` match
type and the `:all` address part, and `i;octet` equality is exact
string equality, so the default match is case-sensitive. -/
theorem tst_address_defaults_octet :
    (∀ (parseAddresses : String → List String)
       (mailHeadersUtf8 : String → Option (List String))
       (hdrList keyList : List String),
        tst_address_opcode_execute parseAddresses mailHeadersUtf8 none
            hdrList keyList
          = tst_address_run parseAddresses mailHeadersUtf8
              SieveAddressPart.all SieveMatchType.is_match
              SieveComparator.i_octet hdrList keyList)
    ∧ (∀ a b : String,
        comparatorEquals SieveComparator.i_octet a b = true ↔ a = b) := by
  constructor
  · intro parseAddresses mailHeadersUtf8 hdrList keyList
    rfl
  · intro a b
    simp [comparatorEquals]

/-! ### The vacation operation: decoding and execution

The operand stream of one `VACATION` operation is modelled as a list of
already classified tokens: each `sieve_opr_*_read` primitive consumes a
token of the matching class and fails on anything else (`bad` stands
for bytes that no reader can decode). -/

/-- One decoded token of the vacation operand stream. -/
inductive VacTok where
  | code (c : Nat)
  | num (n : Nat)
  | str (s : String)
  | strlist (l : List String)
  | bad
  deriving DecidableEq, Repr

/-- `sieve_opr_number_read` (also used for the source line). -/
def sieve_opr_number_read : List VacTok → Option (Nat × List VacTok)
  | VacTok.num n :: rest => some (n, rest)
  | _ => none

/-- `sieve_opr_string_read`. -/
def sieve_opr_string_read : List VacTok → Option (String × List VacTok)
  | VacTok.str s :: rest => some (s, rest)
  | _ => none

/-- `sieve_opr_stringlist_read`. -/
def sieve_opr_stringlist_read : List VacTok → Option (List String × List VacTok)
  | VacTok.strlist l :: rest => some (l, rest)
  | _ => none

/-- `sieve_operand_optional_present`: an optional-operand block is
present exactly when the next operand is an optional-operand id. -/
def sieve_operand_optional_present : List VacTok → Bool
  | VacTok.code _ :: _ => true
  | _ => false

/-- Decoded optional parameters of one vacation operation, at their
initial values from `ext_vacation_operation_execute`. -/
structure VacParams where
  days : Nat := 7
  subject : Option String := none
  from_addr : Option String := none
  addresses : Option (List String) := none
  mime : Bool := false
  deriving DecidableEq, Repr

/-- The optional-operand loop of `ext_vacation_operation_execute`:
read `(opt_code, operand)` pairs until opt_code 0 (`OPT_END`), clamp a
zero `:days` number to 1, and fail (`none` = SIEVE_EXEC_BIN_CORRUPT)
on an unknown opt code, an operand of the wrong class, or a stream
that ends before the terminator. -/
def ext_vacation_read_optionals :
    VacParams → List VacTok → Option (VacParams × List VacTok)
  | p, VacTok.code 0 :: rest => some (p, rest)
  | p, VacTok.code 1 :: VacTok.num n :: rest =>
      ext_vacation_read_optionals
        { p with days := if n = 0 then 1 else n } rest
  | p, VacTok.code 2 :: VacTok.str s :: rest =>
      ext_vacation_read_optionals { p with subject := some s } rest
  | p, VacTok.code 3 :: VacTok.str s :: rest =>
      ext_vacation_read_optionals { p with from_addr := some s } rest
  | p, VacTok.code 4 :: VacTok.strlist l :: rest =>
      ext_vacation_read_optionals { p with addresses := some l } rest
  | p, VacTok.code 5 :: rest =>
      ext_vacation_read_optionals { p with mime := true } rest
  | _, _ => none

/-- The action context recorded by a successful vacation operation. -/
structure ActVacationContext where
  reason : String
  days : Nat
  subject : Option String
  handle : String
  mime : Bool
  from_addr : Option String
  from_normalized : Option String
  addresses : Option (List String)
  deriving DecidableEq, Repr

/-- Observable outcome of one `ext_vacation_operation_execute` run:
the status, the vacation actions added to the result, and the runtime
errors reported. -/
structure ExtVacationOutcome where
  status : SieveExecStatus
  actions : List ActVacationContext
  errors : List String
  deriving DecidableEq, Repr

/-- `ext_vacation_operation_execute`: read the source line, the
optional-operand block, the reason and the handle; check and normalize
an explicit `:from` address (normalizer external; an invalid address
is reported as a runtime error but execution continues); then add the
vacation action to the result.  Any decode failure aborts with
SIEVE_EXEC_BIN_CORRUPT and adds nothing. -/
def ext_vacation_operation_execute
    (normalize : String → Option String) (stream : List VacTok) :
    ExtVacationOutcome :=
  match sieve_opr_number_read stream with
  | none => ⟨SieveExecStatus.binCorrupt, [], []⟩
  | some (_line, s1) =>
    let blockRes :=
      if sieve_operand_optional_present s1 then
        ext_vacation_read_optionals {} s1
      else
        some ({}, s1)
    match blockRes with
    | none => ⟨SieveExecStatus.binCorrupt, [], []⟩
    | some (p, s2) =>
      match sieve_opr_string_read s2 with
      | none => ⟨SieveExecStatus.binCorrupt, [], []⟩
      | some (reason, s3) =>
        match sieve_opr_string_read s3 with
        | none => ⟨SieveExecStatus.binCorrupt, [], []⟩
        | some (handle, _s4) =>
          let normErr :=
            match p.from_addr with
            | none => (none, [])
            | some f =>
              match normalize f with
              | some nf => (some nf, [])
              | none =>
                  ((none : Option String),
                    ["specified :from address is invalid for vacation action"])
          ⟨SieveExecStatus.ok,
            [⟨reason, p.days, p.subject, handle, p.mime, p.from_addr,
              normErr.1, p.addresses⟩],
            normErr.2⟩

/-- `cmd_vacation_validate_number_tag`, `:days` clamping step: the AST
number argument is rewritten to 1 when it equals 0. -/
def cmd_vacation_validate_number_tag (n : Nat) : Nat :=
  if n = 0 then 1 else n

/-- The optional-operand loop never lowers `days` below 1: every write
to `days` goes through the zero clamp. -/
theorem ext_vacation_read_optionals_days_ge
    (p : VacParams) (s : List VacTok) (q : VacParams) (r : List VacTok)
    (hp : 1 ≤ p.days) (h : ext_vacation_read_optionals p s = some (q, r)) :
    1 ≤ q.days := by
  induction p, s using ext_vacation_read_optionals.induct generalizing q r with
  | case1 p rest =>
      simp [ext_vacation_read_optionals] at h
      exact h.1 ▸ hp
  | case2 p n rest ih =>
      simp only [ext_vacation_read_optionals] at h
      refine ih q r ?_ h
      show 1 ≤ (if n = 0 then 1 else n)
      split <;> omega
  | case3 p s rest ih =>
      simp only [ext_vacation_read_optionals] at h
      exact ih q r hp h
  | case4 p s rest ih =>
      simp only [ext_vacation_read_optionals] at h
      exact ih q r hp h
  | case5 p l rest ih =>
      simp only [ext_vacation_read_optionals] at h
      exact ih q r hp h
  | case6 p rest ih =>
      simp only [ext_vacation_read_optionals] at h
      exact ih q r hp h
  | case7 p s h1 h2 h3 h4 h5 h6 =>
      simp [ext_vacation_read_optionals] at h

/-- C2: the vacation `:days` argument is clamped at both stages.  The
tag validator rewrites an AST `:days` number equal to 0 to 1, and the
executed operation only ever records a days value of at least 1 in the
resulting action (the execute-side clamp replaces a decoded 0 by 1 and
the initial value is 7). -/
theorem vacation_days_clamped_both_stages :
    (∀ n : Nat, 1 ≤ cmd_vacation_validate_number_tag n)
    ∧ cmd_vacation_validate_number_tag 0 = 1
    ∧ (∀ (normalize : String → Option String) (stream : List VacTok)
         (act : ActVacationContext),
        act ∈ (ext_vacation_operation_execute normalize stream).actions →
        1 ≤ act.days) := by
  refine ⟨?_, rfl, ?_⟩
  · intro n
    unfold cmd_vacation_validate_number_tag
    split <;> omega
  · intro normalize stream act hmem
    unfold ext_vacation_operation_execute at hmem
    split at hmem
    · simp at hmem
    · rename_i line s1 _
      simp only [] at hmem
      split at hmem
      · simp at hmem
      · rename_i p s2 hblock
        split at hmem
        · simp at hmem
        · rename_i reason s3 _
          split at hmem
          · simp at hmem
          · rename_i handle s4 _
            simp only [List.mem_singleton] at hmem
            subst hmem
            show 1 ≤ p.days
            by_cases hpres : sieve_operand_optional_present s1 = true
            · rw [if_pos hpres] at hblock
              exact ext_vacation_read_optionals_days_ge {} s1 p s2
                (by decide) hblock
            · rw [if_neg hpres] at hblock
              cases hblock
              decide

/-- C2 witness: a stream carrying `:days 0` yields an action whose
days value is 1, hence at least 1. -/
theorem vacation_days_clamped_both_stages_witness :
    (⟨"gone", 1, none, "h", false, none, none, none⟩ : ActVacationContext)
      ∈ (ext_vacation_operation_execute (fun _ => none)
          [VacTok.num 1, VacTok.code 1, VacTok.num 0, VacTok.code 0,
            VacTok.str "gone", VacTok.str "h"]).actions
    ∧ 1 ≤ (⟨"gone", 1, none, "h", false, none, none, none⟩ :
        ActVacationContext).days :=
  ⟨by decide,
    vacation_days_clamped_both_stages.2.2 (fun _ => none)
      [VacTok.num 1, VacTok.code 1, VacTok.num 0, VacTok.code 0,
        VacTok.str "gone", VacTok.str "h"]
      ⟨"gone", 1, none, "h", false, none, none, none⟩ (by decide)⟩

/-- C7: the vacation operation reads its optional-operand block as
`(opt_code, operand)` pairs until opt code 0; an opt code outside
0..5, an operand of the wrong class, or a stream ending early yields
SIEVE_EXEC_BIN_CORRUPT, and the aborted run adds no vacation action
and reports no other outcome. -/
theorem vacation_optional_block_binCorrupt :
    (∀ (p : VacParams) (rest : List VacTok),
        ext_vacation_read_optionals p (VacTok.code 0 :: rest) = some (p, rest))
    ∧ (∀ (p : VacParams) (n : Nat) (rest : List VacTok),
        ext_vacation_read_optionals p (VacTok.code 1 :: VacTok.num n :: rest)
          = ext_vacation_read_optionals
              { p with days := if n = 0 then 1 else n } rest)
    ∧ (∀ (p : VacParams) (c : Nat) (rest : List VacTok), 6 ≤ c →
        ext_vacation_read_optionals p (VacTok.code c :: rest) = none)
    ∧ (∀ (p : VacParams) (t : VacTok) (rest : List VacTok),
        (∀ n, t ≠ VacTok.num n) →
        ext_vacation_read_optionals p (VacTok.code 1 :: t :: rest) = none)
    ∧ (∀ (p : VacParams) (t : VacTok) (rest : List VacTok),
        (∀ s, t ≠ VacTok.str s) →
        ext_vacation_read_optionals p (VacTok.code 2 :: t :: rest) = none
          ∧ ext_vacation_read_optionals p (VacTok.code 3 :: t :: rest) = none)
    ∧ (∀ (p : VacParams) (t : VacTok) (rest : List VacTok),
        (∀ l, t ≠ VacTok.strlist l) →
        ext_vacation_read_optionals p (VacTok.code 4 :: t :: rest) = none)
    ∧ (∀ (normalize : String → Option String) (line c : Nat)
         (toks : List VacTok),
        ext_vacation_read_optionals {} (VacTok.code c :: toks) = none →
        ext_vacation_operation_execute normalize
            (VacTok.num line :: VacTok.code c :: toks)
          = ⟨SieveExecStatus.binCorrupt, [], []⟩) := by
  refine ⟨fun p rest => rfl, fun p n rest => rfl, ?_, ?_, ?_, ?_, ?_⟩
  · intro p c rest hc
    obtain ⟨k, rfl⟩ : ∃ k, c = k + 6 := ⟨c - 6, by omega⟩
    rfl
  · intro p t rest ht
    cases t with
    | num n => exact absurd rfl (ht n)
    | _ => rfl
  · intro p t rest ht
    cases t with
    | str s => exact absurd rfl (ht s)
    | _ => exact ⟨rfl, rfl⟩
  · intro p t rest ht
    cases t with
    | strlist l => exact absurd rfl (ht l)
    | _ => rfl
  · intro normalize line c toks hnone
    unfold ext_vacation_operation_execute
    simp [sieve_opr_number_read, sieve_operand_optional_present, hnone]

/-- C7 witness: opt code 9 is outside the known set, so reading the
block fails and the operation aborts as binary-corrupt with no action
added. -/
theorem vacation_optional_block_binCorrupt_witness :
    ext_vacation_read_optionals {} [VacTok.code 9] = none
    ∧ ext_vacation_read_optionals {} [VacTok.code 1, VacTok.str "x"] = none
    ∧ ext_vacation_operation_execute (fun _ => none)
        [VacTok.num 1, VacTok.code 9]
      = ⟨SieveExecStatus.binCorrupt, [], []⟩ :=
  ⟨vacation_optional_block_binCorrupt.2.2.1 {} 9 [] (by decide),
    vacation_optional_block_binCorrupt.2.2.2.1 {} (VacTok.str "x") []
      (fun n h => by cases h),
    vacation_optional_block_binCorrupt.2.2.2.2.2.2 (fun _ => none) 1 9 []
      (by decide)⟩

/-! ### Vacation action: duplicate and conflict checks -/

/-- The relevant fields of a `sieve_action` definition. -/
structure SieveActionDef where
  name : String
  sends_response : Bool
  deriving DecidableEq, Repr

/-- `act_vacation`: the vacation action definition carries the
SIEVE_ACTFLAG_SENDS_RESPONSE flag. -/
def act_vacation_def : SieveActionDef :=
  ⟨"vacation", true⟩

/-- The relevant fields of a `sieve_action_data` entry in the result
list: its action definition, its source location, whether it was
already executed in a preceding chained script, and its context. -/
structure SieveActionData where
  action : SieveActionDef
  location : String
  executed : Bool
  context : Option ActVacationContext
  deriving DecidableEq, Repr

/-- A runtime error reported through the error handler: the location
it is reported at and the message text. -/
structure SieveRuntimeError where
  location : String
  message : String
  deriving DecidableEq, Repr

/-- `act_vacation_check_duplicate`: adding a vacation action while the
result list holds another one fails with a runtime error naming the
previously triggered location, unless that one was executed in a
preceding script (return 1, not an error). -/
def act_vacation_check_duplicate (act act_other : SieveActionData) :
    Int × List SieveRuntimeError :=
  if !act_other.executed then
    (-1,
      [⟨act.location,
        "duplicate vacation action not allowed " ++
        "(previously triggered one was here: " ++ act_other.location ++ ")"⟩])
  else
    (1, [])

/-- `act_vacation_check_conflict`: an existing action whose definition
carries SIEVE_ACTFLAG_SENDS_RESPONSE conflicts with the new vacation
action (runtime error naming both locations), unless it was executed
in a preceding script (return 1); actions without the flag do not
conflict (return 0). -/
def act_vacation_check_conflict (act act_other : SieveActionData) :
    Int × List SieveRuntimeError :=
  if act_other.action.sends_response then
    if !act_other.executed then
      (-1,
        [⟨act.location,
          "vacation action conflicts with other action: " ++
          "the " ++ act_other.action.name ++ " action (" ++
          act_other.location ++ ") also sends a response back to the sender"⟩])
    else
      (1, [])
  else
    (0, [])

/-- C4: when both the new vacation action and an existing action carry
the SendsResponse flag, the conflict check reports a runtime error
whose location is the new action and whose message names the existing
action and its location — except when the existing action was executed
in a preceding chained script, which is accepted as not an error. -/
theorem vacation_conflict_sends_response
    (act act_other : SieveActionData)
    (_hact : act.action = act_vacation_def)
    (hflag : act_other.action.sends_response = true) :
    (act_other.executed = false →
      act_vacation_check_conflict act act_other
        = (-1,
            [⟨act.location,
              "vacation action conflicts with other action: " ++
              "the " ++ act_other.action.name ++ " action (" ++
              act_other.location ++
              ") also sends a response back to the sender"⟩]))
    ∧ (act_other.executed = true →
        act_vacation_check_conflict act act_other = (1, [])) := by
  constructor
  · intro hexec
    unfold act_vacation_check_conflict
    rw [hflag, hexec]
    rfl
  · intro hexec
    unfold act_vacation_check_conflict
    rw [hflag, hexec]
    rfl

/-- C4 witness: a concrete pending reject-like action that also sends
a response conflicts with the vacation action; an executed one does
not. -/
theorem vacation_conflict_sends_response_witness :
    act_vacation_check_conflict
        ⟨act_vacation_def, "line 12", false, none⟩
        ⟨⟨"reject", true⟩, "line 4", false, none⟩
      = (-1,
          [⟨"line 12",
            "vacation action conflicts with other action: " ++
            "the reject action (line 4" ++
            ") also sends a response back to the sender"⟩])
    ∧ act_vacation_check_conflict
        ⟨act_vacation_def, "line 12", false, none⟩
        ⟨⟨"reject", true⟩, "line 4", true, none⟩
      = (1, []) :=
  ⟨(vacation_conflict_sends_response
      ⟨act_vacation_def, "line 12", false, none⟩
      ⟨⟨"reject", true⟩, "line 4", false, none⟩ rfl rfl).1 rfl,
    (vacation_conflict_sends_response
      ⟨act_vacation_def, "line 12", false, none⟩
      ⟨⟨"reject", true⟩, "line 4", true, none⟩ rfl rfl).2 rfl⟩

/-- C5: adding a vacation action while the result list already holds a
vacation action with equal context reports a duplicate-action runtime
error naming the previously triggered location, unless the existing
entry was executed in a preceding chained script, in which case it is
accepted without error. -/
theorem vacation_duplicate_not_allowed
    (act act_other : SieveActionData)
    (_hact : act.action = act_vacation_def)
    (_hother : act_other.action = act_vacation_def)
    (_hctx : act.context = act_other.context) :
    (act_other.executed = false →
      act_vacation_check_duplicate act act_other
        = (-1,
            [⟨act.location,
              "duplicate vacation action not allowed " ++
              "(previously triggered one was here: " ++
              act_other.location ++ ")"⟩]))
    ∧ (act_other.executed = true →
        act_vacation_check_duplicate act act_other = (1, [])) := by
  constructor
  · intro hexec
    unfold act_vacation_check_duplicate
    rw [hexec]
    rfl
  · intro hexec
    unfold act_vacation_check_duplicate
    rw [hexec]
    rfl

/-- C5 witness: a pending equal-context vacation entry raises the
duplicate error, an executed one is accepted. -/
theorem vacation_duplicate_not_allowed_witness :
    act_vacation_check_duplicate
        ⟨act_vacation_def, "line 9", false, none⟩
        ⟨act_vacation_def, "line 2", false, none⟩
      = (-1,
          [⟨"line 9",
            "duplicate vacation action not allowed " ++
            "(previously triggered one was here: " ++ "line 2" ++ ")"⟩])
    ∧ act_vacation_check_duplicate
        ⟨act_vacation_def, "line 9", false, none⟩
        ⟨act_vacation_def, "line 2", true, none⟩
      = (1, []) :=
  ⟨(vacation_duplicate_not_allowed
      ⟨act_vacation_def, "line 9", false, none⟩
      ⟨act_vacation_def, "line 2", false, none⟩ rfl rfl rfl).1 rfl,
    (vacation_duplicate_not_allowed
      ⟨act_vacation_def, "line 9", false, none⟩
      ⟨act_vacation_def, "line 2", true, none⟩ rfl rfl rfl).2 rfl⟩

/-! ### The duplicate extension -/

/-- Context data of one pending `duplicate_mark` action. -/
structure ActDuplicateMarkData where
  handle : Option String
  period : Nat
  hash : String
  last : Bool
  deriving DecidableEq, Repr

/-- `act_duplicate_mark_finish`: the finish hook of the duplicate_mark
action requests the host mark (hash, expiry = now + period) exactly
when the whole execution finished with SIEVE_EXEC_OK. -/
def act_duplicate_mark_finish (now : Nat) (d : ActDuplicateMarkData)
    (status : SieveExecStatus) : Option (String × Nat) :=
  if status = SieveExecStatus.ok then
    some (d.hash, now + d.period)
  else
    none

/-- C3: the duplicate-mark side effect runs only on successful commit:
the finish hook calls the host duplicate_mark if and only if the
status passed to it is Ok, and then with expiry now + period; under
any other status nothing is recorded. -/
theorem duplicate_mark_finish_only_on_ok :
    ∀ (now : Nat) (d : ActDuplicateMarkData) (status : SieveExecStatus),
      ((act_duplicate_mark_finish now d status).isSome = true
          ↔ status = SieveExecStatus.ok)
      ∧ act_duplicate_mark_finish now d SieveExecStatus.ok
          = some (d.hash, now + d.period) := by
  intro now d status
  constructor
  · cases status <;> simp [act_duplicate_mark_finish]
  · simp [act_duplicate_mark_finish]

/-- One cached verdict of the duplicate test, for a given handle
string and `:last` flag. -/
structure ExtDuplicateHandle where
  handle : String
  last : Bool
  duplicate : Bool
  deriving DecidableEq, Repr

/-- Per-message context of the duplicate extension: the cached
verdicts for explicit handles, and the single cached verdict for the
no-handle case. -/
structure ExtDuplicateContext where
  handles : List ExtDuplicateHandle := []
  nohandle_duplicate : Bool := false
  nohandle_checked : Bool := false
  deriving DecidableEq, Repr

/-- `ext_duplicate_hash`: the MD5 digest is modelled by the exact
update sequence fed to it — the fixed id, a last marker, the handle
marker and the checked value. -/
def ext_duplicate_hash (handle : Option String) (value : String)
    (last : Bool) : String :=
  "sieve duplicate" ++ (if last then "0" else "+") ++
    (match handle with
     | some h => "h-" ++ h
     | none => "default") ++ value

/-- Look up the cached verdict for a handle and last flag, mirroring
the early-return checks of `ext_duplicate_check` (the no-handle cache
ignores the last flag, the handle cache matches handle and flag). -/
def dupCacheLookup (rctx : ExtDuplicateContext) (handle : Option String)
    (last : Bool) : Option Bool :=
  match handle with
  | none =>
      if rctx.nohandle_checked then some rctx.nohandle_duplicate else none
  | some h =>
      (rctx.handles.find? fun rec => rec.handle == h && rec.last == last).map
        fun rec => rec.duplicate

/-- Record a just-computed verdict in the per-message context,
mirroring the cache-result block of `ext_duplicate_check`. -/
def dupCacheStore (rctx : ExtDuplicateContext) (handle : Option String)
    (last dup : Bool) : ExtDuplicateContext :=
  match handle with
  | none =>
      { rctx with nohandle_checked := true, nohandle_duplicate := dup }
  | some h =>
      { rctx with handles := rctx.handles ++ [⟨h, last, dup⟩] }

/-- Observable outcome of one `ext_duplicate_check` call: the return
value (1 duplicate, 0 not), the per-message context afterwards, the
hashes queried against the persistent store, the warnings reported and
the duplicate_mark actions added to the result. -/
structure DupCheckOut where
  ret : Int
  ctx : Option ExtDuplicateContext
  storeQueries : List String
  warnings : List String
  actions : List ActDuplicateMarkData
  deriving Repr

/-- The cache-miss tail of `ext_duplicate_check`: hash, query the
store, additionally probe the no-last hash when a `:last` check found
nothing, defer the duplicate mark (added unless an ordinary check came
back duplicate), and cache the verdict. -/
def ext_duplicate_check_miss (store : String → Bool)
    (rctx : ExtDuplicateContext) (handle : Option String) (v : String)
    (period : Nat) (last : Bool) : DupCheckOut :=
  let hash := ext_duplicate_hash handle v last
  let dup := store hash
  let act : ActDuplicateMarkData := ⟨handle, period, hash, last⟩
  ⟨if dup then 1 else 0,
    some (dupCacheStore rctx handle last dup),
    if !dup && last then [hash, ext_duplicate_hash handle v false] else [hash],
    [],
    if !dup || last then [act] else []⟩

/-- `ext_duplicate_check`: a missing host duplicate_check capability
degrades to a warning and verdict 0; a missing value gives verdict 0;
otherwise the per-message cache is consulted first and the store is
queried (and the verdict cached) only on a miss. -/
def ext_duplicate_check (dupStore : Option (String → Bool))
    (ctx : Option ExtDuplicateContext) (handle : Option String)
    (value : Option String) (period : Nat) (last : Bool) : DupCheckOut :=
  match dupStore with
  | none =>
      ⟨0, ctx, [],
        ["duplicate test: duplicate checking not available in this context"],
        []⟩
  | some store =>
    match value with
    | none => ⟨0, ctx, [], [], []⟩
    | some v =>
      match ctx with
      | some rctx =>
        match dupCacheLookup rctx handle last with
        | some dup => ⟨if dup then 1 else 0, ctx, [], [], []⟩
        | none => ext_duplicate_check_miss store rctx handle v period last
      | none => ext_duplicate_check_miss store {} handle v period last

/-- Searching a concatenation whose first part has no match searches
the second part. -/
theorem find?_append_of_none {α : Type} (p : α → Bool) (l1 l2 : List α)
    (h : l1.find? p = none) : (l1 ++ l2).find? p = l2.find? p := by
  induction l1 with
  | nil => rfl
  | cons a t ih =>
      cases hpa : p a with
      | true =>
          rw [List.find?_cons_of_pos _ hpa] at h
          cases h
      | false =>
          rw [List.find?_cons_of_neg _ (by simp [hpa])] at h
          rw [List.cons_append, List.find?_cons_of_neg _ (by simp [hpa])]
          exact ih h

/-- An empty per-message context caches nothing. -/
theorem dupCacheLookup_empty (handle : Option String) (last : Bool) :
    dupCacheLookup {} handle last = none := by
  cases handle <;> simp [dupCacheLookup]

/-- After a verdict is stored for a handle and last flag, looking the
same key up returns exactly that verdict. -/
theorem dupCacheLookup_store (rctx : ExtDuplicateContext)
    (handle : Option String) (last dup : Bool)
    (hmiss : dupCacheLookup rctx handle last = none) :
    dupCacheLookup (dupCacheStore rctx handle last dup) handle last
      = some dup := by
  cases handle with
  | none => simp [dupCacheLookup, dupCacheStore]
  | some h =>
      simp only [dupCacheLookup, dupCacheStore] at hmiss ⊢
      rw [Option.map_eq_none'] at hmiss
      rw [find?_append_of_none _ _ _ hmiss]
      simp [List.find?]

/-- A call that hits the per-message cache returns the cached verdict
and changes nothing. -/
theorem ext_duplicate_check_cached (store : String → Bool)
    (rctx : ExtDuplicateContext) (handle : Option String) (v : String)
    (period : Nat) (last dup : Bool)
    (h : dupCacheLookup rctx handle last = some dup) :
    ext_duplicate_check (some store) (some rctx) handle (some v) period last
      = ⟨if dup then 1 else 0, some rctx, [], [], []⟩ := by
  simp only [ext_duplicate_check, h]

/-- A call that misses the per-message cache runs the miss tail. -/
theorem ext_duplicate_check_miss_eq (store : String → Bool)
    (rctx : ExtDuplicateContext) (handle : Option String) (v : String)
    (period : Nat) (last : Bool)
    (h : dupCacheLookup rctx handle last = none) :
    ext_duplicate_check (some store) (some rctx) handle (some v) period last
      = ext_duplicate_check_miss store rctx handle v period last := by
  simp only [ext_duplicate_check, h]

/-- C9: within one message context the duplicate test consults the
persistent store at most once per key: after any call for a handle
(or the no-handle case) and last flag, a later call with an equal
handle string and the same last flag returns the same verdict with no
store query, no context change and no new deferred mark action. -/
theorem duplicate_check_cached_per_key
    (store : String → Bool) (ctx : Option ExtDuplicateContext)
    (handle : Option String) (v1 v2 : String) (p1 p2 : Nat) (last : Bool) :
    ext_duplicate_check (some store)
        (ext_duplicate_check (some store) ctx handle (some v1) p1 last).ctx
        handle (some v2) p2 last
      = ⟨(ext_duplicate_check (some store) ctx handle (some v1) p1 last).ret,
          (ext_duplicate_check (some store) ctx handle (some v1) p1 last).ctx,
          [], [], []⟩ := by
  cases ctx with
  | none =>
      rw [show ext_duplicate_check (some store) none handle (some v1) p1 last
            = ext_duplicate_check_miss store {} handle v1 p1 last from rfl]
      rw [show (ext_duplicate_check_miss store {} handle v1 p1 last).ctx
            = some (dupCacheStore {} handle last
                (store (ext_duplicate_hash handle v1 last))) from rfl]
      rw [ext_duplicate_check_cached store _ handle v2 p2 last _
            (dupCacheLookup_store _ _ _ _ (dupCacheLookup_empty _ _))]
      rfl
  | some rctx =>
      cases hl : dupCacheLookup rctx handle last with
      | some dup =>
          rw [ext_duplicate_check_cached store rctx handle v1 p1 last dup hl]
          dsimp only
          rw [ext_duplicate_check_cached store rctx handle v2 p2 last dup hl]
      | none =>
          rw [ext_duplicate_check_miss_eq store rctx handle v1 p1 last hl]
          rw [show (ext_duplicate_check_miss store rctx handle v1 p1 last).ctx
                = some (dupCacheStore rctx handle last
                    (store (ext_duplicate_hash handle v1 last))) from rfl]
          rw [ext_duplicate_check_cached store _ handle v2 p2 last _
              (dupCacheLookup_store _ _ _ _ hl)]
          rfl

/-! ### The vacation action commit path -/

/-- One parsed RFC 2822 address from a recipient header (the external
`message_address_parse` yields a mailbox and an optional domain). -/
structure MsgAddr where
  mailbox : String
  domain : Option String
  deriving DecidableEq, Repr

/-- The message data consumed by the commit path. -/
structure SieveMessageData where
  return_path : Option String
  to_address : Option String
  id : Option String
  deriving DecidableEq, Repr

/-- The mail handle: raw and UTF-8-decoded header retrieval; `none`
models a failed `mail_get_headers*` call. -/
structure MailEnv where
  get_headers : String → Option (List String)
  get_headers_utf8 : String → Option (List String)

/-- Host capabilities of the script environment used by the vacation
action: presence of the SMTP callbacks (with the close result), the
duplicate store query, presence of the mark callback, and the user. -/
structure SieveScriptEnv where
  smtp_open_present : Bool
  smtp_close : Option Bool
  duplicate_check : Option (String → Bool)
  duplicate_mark : Bool
  username : String

/-- Log lines emitted by the vacation commit path. -/
inductive VacLog where
  | discardedReplyToEmptyPath
  | discardedReplyToOwnAddress
  | discardedDuplicate (rp : String)
  | discardedMailingList (rp : String)
  | discardedAutoSubmitted (rp : String)
  | discardedPrecedence (rp : String)
  | notSendingSystemAddress (rp : String)
  | discardedImplicitDelivery (dest : String)
  | sentResponse (rp : String)
  | noMeansToSend
  | smtpCloseFailed (rp : String)
  deriving DecidableEq, Repr

/-- `act_vacation_hash`: the MD5 digest is modelled by its exact input
bytes — the message return path followed by the vacation handle. -/
def act_vacation_hash (return_path handle : String) : String :=
  return_path ++ handle

/-- Header names associated with mailing lists. -/
def list_headers : List String :=
  ["list-id", "list-owner", "list-subscribe", "list-post",
   "list-unsubscribe", "list-help", "list-archive"]

/-- Header names searched for the recipient user address. -/
def my_address_headers : List String :=
  ["to", "cc", "bcc", "resent-to", "resent-cc", "resent-bcc"]

/-- `_is_system_address`: case-insensitive prefixes MAILER-DAEMON,
LISTSERV and majordomo, a literal `-request@` substring, or a literal
`owner-` prefix. -/
def is_system_address (address : String) : Bool :=
  seqStartsWith (fun a b => a.toLower == b.toLower)
      address.data "mailer-daemon".data
  || seqStartsWith (fun a b => a.toLower == b.toLower)
      address.data "listserv".data
  || seqStartsWith (fun a b => a.toLower == b.toLower)
      address.data "majordomo".data
  || seqContainsWith (fun a b => a == b) address.data "-request@".data
  || seqStartsWith (fun a b => a == b) address.data "owner-".data

/-- `_contains_my_address`: scan the header values, parse each into
addresses, and compare `mailbox@domain` (only addresses with a domain)
against the candidate address. -/
def contains_my_address (parseAddr : String → List MsgAddr)
    (headers : List String) (my_address : String) : Bool :=
  headers.any fun h =>
    (parseAddr h).any fun a =>
      match a.domain with
      | some d => (a.mailbox ++ "@" ++ d) == my_address
      | none => false

/-- The recipient scan of `act_vacation_commit`: the first recipient
header carrying the user address (`to_address` or one of the
`:addresses` values) decides; none of them present means the message
was delivered implicitly. -/
def vacation_addressed_to_me (parseAddr : String → List MsgAddr)
    (mail : MailEnv) (msgdata : SieveMessageData)
    (ctx : ActVacationContext) : Bool :=
  my_address_headers.any fun hname =>
    match mail.get_headers_utf8 hname with
    | some headers =>
        !headers.isEmpty
        && ((match msgdata.to_address with
             | some ta => contains_my_address parseAddr headers ta
             | none => false)
           || (match ctx.addresses with
               | some addrs =>
                   addrs.any fun a => contains_my_address parseAddr headers a
               | none => false))
    | none => false

/-- Outcome of `act_vacation_send`: the returned status (always TRUE,
also in the degraded and close-failure paths), whether an SMTP session
was opened, and the log lines emitted. -/
structure SendOut where
  ret : Bool
  opened : Bool
  logs : List VacLog
  deriving DecidableEq, Repr

/-- `act_vacation_send`: without both smtp_open and smtp_close the
action warns and sends nothing but still reports success; otherwise an
SMTP session is opened, the reply written and the session closed (a
close failure is logged as an error, the action still returns TRUE). -/
def act_vacation_send (senv : SieveScriptEnv) (rp : String) : SendOut :=
  if senv.smtp_open_present = false ∨ senv.smtp_close = none then
    ⟨true, false, [VacLog.noMeansToSend]⟩
  else if senv.smtp_close = some false then
    ⟨true, true, [VacLog.smtpCloseFailed rp]⟩
  else
    ⟨true, true, []⟩

/-- Outcome of `act_vacation_commit`: the commit status, the log lines
in order, whether SMTP traffic was produced, the duplicate marks
recorded (hash, expiry) and the reply subject actually used. -/
structure CommitOut where
  ret : Bool
  logs : List VacLog
  smtp_opened : Bool
  marks : List (String × Nat)
  subject : Option String
  deriving DecidableEq, Repr

/-- Does any of the mailing-list headers occur in the message? -/
def vacation_mailinglist_recipient (mail : MailEnv) : Bool :=
  list_headers.any fun h =>
    match mail.get_headers h with
    | some headers => !headers.isEmpty
    | none => false

/-- Is the message an automatic reply (an auto-submitted header value
other than no)? -/
def vacation_auto_submitted (mail : MailEnv) : Bool :=
  match mail.get_headers "auto-submitted" with
  | some headers => headers.any fun h => !(lowerAscii h == "no")
  | none => false

/-- Does a precedence header mark the message junk, bulk or list? -/
def vacation_precedence_blocked (mail : MailEnv) : Bool :=
  match mail.get_headers "precedence" with
  | some headers =>
      headers.any fun h =>
        lowerAscii h == "junk" || lowerAscii h == "bulk"
          || lowerAscii h == "list"
  | none => false

/-- The reply subject: an explicit non-empty `:subject`, otherwise
Auto: prefixed on the original subject, otherwise a fixed text. -/
def vacation_reply_subject (mail : MailEnv) (ctx : ActVacationContext) :
    String :=
  match ctx.subject with
  | some s =>
      if s = "" then
        match mail.get_headers_utf8 "subject" with
        | some (h :: _) => "Auto: " ++ h
        | _ => "Automated reply"
      else s
  | none =>
      match mail.get_headers_utf8 "subject" with
      | some (h :: _) => "Auto: " ++ h
      | _ => "Automated reply"

/-- `act_vacation_commit`: the guard chain of the vacation commit.
Reply to a null or empty return path, to the own address, to an
already-answered sender (host duplicate check), to a mailing list, to
an auto-submitted message, to junk/bulk/list precedence, to a system
address, or for an implicitly delivered message is discarded with a
log line and success; otherwise the reply is sent and, when the mark
callback is present, the sender is marked answered until
now + days * 24 * 60 * 60. -/
def act_vacation_commit (parseAddr : String → List MsgAddr) (now : Nat)
    (senv : SieveScriptEnv) (msgdata : SieveMessageData) (mail : MailEnv)
    (ctx : ActVacationContext) : CommitOut :=
  match msgdata.return_path with
  | none => ⟨true, [VacLog.discardedReplyToEmptyPath], false, [], none⟩
  | some rp =>
    if rp = "" then
      ⟨true, [VacLog.discardedReplyToEmptyPath], false, [], none⟩
    else if msgdata.to_address = some rp then
      ⟨true, [VacLog.discardedReplyToOwnAddress], false, [], none⟩
    else if (match senv.duplicate_check with
             | some check => check (act_vacation_hash rp ctx.handle)
             | none => false) then
      ⟨true, [VacLog.discardedDuplicate rp], false, [], none⟩
    else if vacation_mailinglist_recipient mail then
      ⟨true, [VacLog.discardedMailingList rp], false, [], none⟩
    else if vacation_auto_submitted mail then
      ⟨true, [VacLog.discardedAutoSubmitted rp], false, [], none⟩
    else if vacation_precedence_blocked mail then
      ⟨true, [VacLog.discardedPrecedence rp], false, [], none⟩
    else if is_system_address rp then
      ⟨true, [VacLog.notSendingSystemAddress rp], false, [], none⟩
    else if !vacation_addressed_to_me parseAddr mail msgdata ctx then
      ⟨true,
        [VacLog.discardedImplicitDelivery
          ((msgdata.to_address).getD "UNKNOWN")], false, [], none⟩
    else
      let subject := vacation_reply_subject mail ctx
      let s := act_vacation_send senv rp
      if s.ret then
        ⟨true, s.logs ++ [VacLog.sentResponse rp], s.opened,
          if senv.duplicate_mark then
            [(act_vacation_hash rp ctx.handle,
              now + ctx.days * (24 * 60 * 60))]
          else [],
          some subject⟩
      else
        ⟨false, s.logs, s.opened, [], some subject⟩

/-- `act_vacation_send` reports success on every path, including the
degraded no-SMTP path and a failed session close. -/
theorem act_vacation_send_ret (senv : SieveScriptEnv) (rp : String) :
    (act_vacation_send senv rp).ret = true := by
  unfold act_vacation_send
  split
  · rfl
  · split <;> rfl

/-- C8: a missing host capability degrades to a warning, never an
error: without a duplicate_check function the duplicate test warns and
returns 0 (not a duplicate) leaving everything untouched, and without
smtp_open or smtp_close the vacation send warns, opens no SMTP
session, and still reports success. -/
theorem capability_missing_degrades_to_warning :
    (∀ (ctx : Option ExtDuplicateContext) (handle : Option String)
       (value : Option String) (period : Nat) (last : Bool),
        ext_duplicate_check none ctx handle value period last
          = ⟨0, ctx, [],
              ["duplicate test: " ++
                "duplicate checking not available in this context"],
              []⟩)
    ∧ (∀ (senv : SieveScriptEnv) (rp : String),
        senv.smtp_open_present = false ∨ senv.smtp_close = none →
        act_vacation_send senv rp
          = ⟨true, false, [VacLog.noMeansToSend]⟩) := by
  constructor
  · intro ctx handle value period last
    rfl
  · intro senv rp h
    unfold act_vacation_send
    rw [if_pos h]

/-- C8 witness: an environment without smtp_open degrades the send to
a success with a warning and no SMTP session. -/
theorem capability_missing_degrades_to_warning_witness :
    act_vacation_send ⟨false, some true, none, false, "me"⟩ "sender@x"
      = ⟨true, false, [VacLog.noMeansToSend]⟩ :=
  capability_missing_degrades_to_warning.2
    ⟨false, some true, none, false, "me"⟩ "sender@x" (Or.inl rfl)

/-- When the commit path produced SMTP traffic, the recorded marks are
exactly those of the final send branch: present iff the host mark
callback is, with expiry now + days in seconds. -/
theorem act_vacation_commit_opened_marks
    (parseAddr : String → List MsgAddr) (now : Nat) (senv : SieveScriptEnv)
    (msgdata : SieveMessageData) (mail : MailEnv) (ctx : ActVacationContext)
    (rp : String) (hrp : msgdata.return_path = some rp) :
    (act_vacation_commit parseAddr now senv msgdata mail ctx).smtp_opened
        = true →
    (act_vacation_commit parseAddr now senv msgdata mail ctx).marks
      = if senv.duplicate_mark then
          [(act_vacation_hash rp ctx.handle,
            now + ctx.days * (24 * 60 * 60))]
        else [] := by
  unfold act_vacation_commit
  rw [hrp]
  simp only [act_vacation_send_ret]
  repeat' split
  all_goals intro hopen
  all_goals simp_all

/-- C6: when the host duplicate check reports the vacation response
hash (return path plus handle) as already answered, the commit
produces no SMTP traffic, logs a discarded-duplicate line and reports
success; and whenever a response is actually sent (SMTP traffic
produced) and the mark callback is present, duplicate_mark is recorded
with expiry now + days * 86400. -/
theorem vacation_commit_duplicate_and_mark :
    (∀ (parseAddr : String → List MsgAddr) (now : Nat)
       (senv : SieveScriptEnv) (msgdata : SieveMessageData) (mail : MailEnv)
       (ctx : ActVacationContext) (rp : String) (check : String → Bool),
        msgdata.return_path = some rp → rp ≠ "" →
        msgdata.to_address ≠ some rp →
        senv.duplicate_check = some check →
        check (act_vacation_hash rp ctx.handle) = true →
        act_vacation_commit parseAddr now senv msgdata mail ctx
          = ⟨true, [VacLog.discardedDuplicate rp], false, [], none⟩)
    ∧ (∀ (parseAddr : String → List MsgAddr) (now : Nat)
         (senv : SieveScriptEnv) (msgdata : SieveMessageData)
         (mail : MailEnv) (ctx : ActVacationContext) (rp : String),
        msgdata.return_path = some rp →
        senv.duplicate_mark = true →
        (act_vacation_commit parseAddr now senv msgdata mail
            ctx).smtp_opened = true →
        (act_vacation_commit parseAddr now senv msgdata mail ctx).marks
          = [(act_vacation_hash rp ctx.handle,
              now + ctx.days * (24 * 60 * 60))]) := by
  constructor
  · intro parseAddr now senv msgdata mail ctx rp check hrp hne hta hdc hchk
    unfold act_vacation_commit
    rw [hrp]
    dsimp only
    rw [if_neg hne, if_neg hta, hdc]
    simp only [hchk, if_true]
  · intro parseAddr now senv msgdata mail ctx rp hrp hmark hopen
    have h := act_vacation_commit_opened_marks parseAddr now senv msgdata
      mail ctx rp hrp hopen
    rw [hmark] at h
    simpa using h

/-- C6 witness: with a host store that already knows the hash the
commit discards the duplicate without traffic and still succeeds; and
on a full send path the mark is recorded with expiry
100 + 7 * 86400 = 604900. -/
theorem vacation_commit_duplicate_and_mark_witness :
    act_vacation_commit (fun _ => []) 100
        ⟨true, some true, some (fun _ => true), true, "me"⟩
        ⟨some "sender@x", some "me@y", none⟩
        ⟨fun _ => none, fun _ => none⟩
        ⟨"gone", 7, none, "h", false, none, none, none⟩
      = ⟨true, [VacLog.discardedDuplicate "sender@x"], false, [], none⟩
    ∧ (act_vacation_commit
          (fun s => if s = "me@y" then [⟨"me", some "y"⟩] else []) 100
          ⟨true, some true, none, true, "me"⟩
          ⟨some "sender@x", some "me@y", none⟩
          ⟨fun _ => none, fun h => if h = "to" then some ["me@y"] else none⟩
          ⟨"gone", 7, none, "h", false, none, none, none⟩).marks
        = [("sender@xh", 604900)] :=
  ⟨vacation_commit_duplicate_and_mark.1 (fun _ => []) 100
      ⟨true, some true, some (fun _ => true), true, "me"⟩
      ⟨some "sender@x", some "me@y", none⟩
      ⟨fun _ => none, fun _ => none⟩
      ⟨"gone", 7, none, "h", false, none, none, none⟩
      "sender@x" (fun _ => true) rfl (by decide) (by decide) rfl rfl,
    vacation_commit_duplicate_and_mark.2
      (fun s => if s = "me@y" then [⟨"me", some "y"⟩] else []) 100
      ⟨true, some true, none, true, "me"⟩
      ⟨some "sender@x", some "me@y", none⟩
      ⟨fun _ => none, fun h => if h = "to" then some ["me@y"] else none⟩
      ⟨"gone", 7, none, "h", false, none, none, none⟩
      "sender@x" rfl rfl (by decide)⟩

/-- C10: the commit sends no reply yet reports success for a null or
empty return path (reply to nobody) and for a return path equal to the
delivery to-address (reply to the own address), logging a line in each
case. -/
theorem vacation_commit_sender_edge_cases :
    (∀ (parseAddr : String → List MsgAddr) (now : Nat)
       (senv : SieveScriptEnv) (msgdata : SieveMessageData) (mail : MailEnv)
       (ctx : ActVacationContext),
        msgdata.return_path = none →
        act_vacation_commit parseAddr now senv msgdata mail ctx
          = ⟨true, [VacLog.discardedReplyToEmptyPath], false, [], none⟩)
    ∧ (∀ (parseAddr : String → List MsgAddr) (now : Nat)
         (senv : SieveScriptEnv) (msgdata : SieveMessageData)
         (mail : MailEnv) (ctx : ActVacationContext),
        msgdata.return_path = some "" →
        act_vacation_commit parseAddr now senv msgdata mail ctx
          = ⟨true, [VacLog.discardedReplyToEmptyPath], false, [], none⟩)
    ∧ (∀ (parseAddr : String → List MsgAddr) (now : Nat)
         (senv : SieveScriptEnv) (msgdata : SieveMessageData)
         (mail : MailEnv) (ctx : ActVacationContext) (rp : String),
        msgdata.return_path = some rp → rp ≠ "" →
        msgdata.to_address = some rp →
        act_vacation_commit parseAddr now senv msgdata mail ctx
          = ⟨true, [VacLog.discardedReplyToOwnAddress], false, [], none⟩) := by
  refine ⟨?_, ?_, ?_⟩
  · intro parseAddr now senv msgdata mail ctx hrp
    unfold act_vacation_commit
    rw [hrp]
  · intro parseAddr now senv msgdata mail ctx hrp
    unfold act_vacation_commit
    rw [hrp]
    dsimp only
    rw [if_pos rfl]
  · intro parseAddr now senv msgdata mail ctx rp hrp hne hta
    unfold act_vacation_commit
    rw [hrp]
    dsimp only
    rw [if_neg hne, if_pos hta]

/-- C10 witness: the three discard cases at concrete inputs. -/
theorem vacation_commit_sender_edge_cases_witness :
    act_vacation_commit (fun _ => []) 0
        ⟨true, some true, none, false, "me"⟩ ⟨none, some "me@y", none⟩
        ⟨fun _ => none, fun _ => none⟩
        ⟨"gone", 7, none, "h", false, none, none, none⟩
      = ⟨true, [VacLog.discardedReplyToEmptyPath], false, [], none⟩
    ∧ act_vacation_commit (fun _ => []) 0
        ⟨true, some true, none, false, "me"⟩ ⟨some "", some "me@y", none⟩
        ⟨fun _ => none, fun _ => none⟩
        ⟨"gone", 7, none, "h", false, none, none, none⟩
      = ⟨true, [VacLog.discardedReplyToEmptyPath], false, [], none⟩
    ∧ act_vacation_commit (fun _ => []) 0
        ⟨true, some true, none, false, "me"⟩
        ⟨some "me@y", some "me@y", none⟩
        ⟨fun _ => none, fun _ => none⟩
        ⟨"gone", 7, none, "h", false, none, none, none⟩
      = ⟨true, [VacLog.discardedReplyToOwnAddress], false, [], none⟩ :=
  ⟨vacation_commit_sender_edge_cases.1 (fun _ => []) 0
      ⟨true, some true, none, false, "me"⟩ ⟨none, some "me@y", none⟩
      ⟨fun _ => none, fun _ => none⟩
      ⟨"gone", 7, none, "h", false, none, none, none⟩ rfl,
    vacation_commit_sender_edge_cases.2.1 (fun _ => []) 0
      ⟨true, some true, none, false, "me"⟩ ⟨some "", some "me@y", none⟩
      ⟨fun _ => none, fun _ => none⟩
      ⟨"gone", 7, none, "h", false, none, none, none⟩ rfl,
    vacation_commit_sender_edge_cases.2.2 (fun _ => []) 0
      ⟨true, some true, none, false, "me"⟩ ⟨some "me@y", some "me@y", none⟩
      ⟨fun _ => none, fun _ => none⟩
      ⟨"gone", 7, none, "h", false, none, none, none⟩ "me@y" rfl
      (by decide) rfl⟩
